import Mathlib

/-!
Verification of the RAG-streaming tutorial notebook
(`docs/docs/how_to/qa_streaming.ipynb`).

The notebook wires an external orchestration library's loader, splitter,
vector store, retriever and chain objects together and consumes their
streamed output. We embed:

* the data shapes crossing the library boundary (documents, streamed
  chunks, streamed events), modelled from the spec where the producing
  code lives outside the provided sources;
* the notebook's own consumer loops (the key-filtering loop over
  `rag_chain.stream`, and the two filtering loops over
  `rag_chain.astream_events`), translated directly from the notebook cells;
* a syntactic inventory of the notebook's consumer loops and environment
  variable accesses, for the counting claims.
-/

set_option autoImplicit false

namespace QAStreaming

/-- A document record as produced by the external loader: page text plus a
source-URL metadata field (`page_content` and `metadata.source` in the
notebook transcripts). -/
structure Document where
  page_content : String
  source : String
deriving DecidableEq, Repr

/-- A value stored under a key of a streamed chunk: either a text fragment
(the `input` query or an `answer` fragment) or a sequence of retrieved
documents (the `context` value). -/
inductive ChunkVal where
  | str : String → ChunkVal
  | docList : List Document → ChunkVal
deriving DecidableEq, Repr

/-- A streamed chunk is a Python dict; we embed it as an association list of
keys to values. -/
abbrev Chunk := List (String × ChunkVal)

/-- `chunk.get(k)`: the first value stored under key `k`, if any (Python
`dict.get` returns `None` on a missing key). -/
def Chunk.get (c : Chunk) (k : String) : Option ChunkVal :=
  (c.find? (fun kv => kv.1 == k)).map (fun kv => kv.2)

/-- The keys of a chunk, in order. -/
def Chunk.keys (c : Chunk) : List String :=
  c.map (fun kv => kv.1)

/-- Modelled from the spec: the chain built by `create_retrieval_chain`
returns a dict with keys `input`, `context` and `answer`, and its `.stream`
method streams each key in sequence: first a chunk carrying the original
query under `input`, then a chunk carrying the retrieved documents under
`context`, then one chunk per answer fragment under `answer`. The stream
implementation itself is library code not present in the provided sources. -/
def ragStream (q : String) (ds : List Document) (frags : List String) : List Chunk :=
  [("input", ChunkVal.str q)] :: [("context", ChunkVal.docList ds)] ::
    frags.map (fun f => [("answer", ChunkVal.str f)])

/-- Python truthiness of a chunk value: a string is truthy iff non-empty, a
document list is truthy iff non-empty. -/
def pyTruthy : ChunkVal → Bool
  | ChunkVal.str s => s != ""
  | ChunkVal.docList ds => !ds.isEmpty

/-- The body of the notebook's key-filtering loop
`if answer_chunk := chunk.get("answer"): print(f"{answer_chunk}|", end="")`:
the walrus assignment gets the value under `answer` and the `if` tests its
truthiness (a missing key yields `None`, which is falsy); when the test
passes, the value is emitted. -/
def answerEmit (c : Chunk) : Option ChunkVal :=
  match Chunk.get c "answer" with
  | some v => if pyTruthy v then some v else none
  | none => none

/-- The key-filtering consumer loop over the streamed chunks: the list of
fragments it emits (passes to `print`), in order. -/
def answerPrintLoop (chunks : List Chunk) : List ChunkVal :=
  chunks.filterMap answerEmit

/-- Modelled from the spec: `rag_chain.pick("answer")` selects only the
`answer` key, so streaming the picked chain emits, for each chunk of the
underlying stream that carries the `answer` key, the value under that key
(including empty fragments). The `pick` implementation is library code not
present in the provided sources. -/
def pickAnswerStream (chunks : List Chunk) : List ChunkVal :=
  chunks.filterMap (fun c => Chunk.get c "answer")

/-- Whether a chunk value is a text fragment. -/
def ChunkVal.isStr : ChunkVal → Bool
  | ChunkVal.str _ => true
  | ChunkVal.docList _ => false

/-- The text of a chunk value, when it is a text fragment. -/
def ChunkVal.asText : ChunkVal → Option String
  | ChunkVal.str s => some s
  | ChunkVal.docList _ => none

/-- A token chunk produced by the chat model, carrying a `content` text. -/
structure AIMessageChunk where
  content : String
deriving DecidableEq, Repr

/-- Modelled from the spec: the nested `data` payload of a streamed event.
An `on_chat_model_stream` event carries a token chunk under `chunk`; a
retriever event carries an input query and, on end, output documents. The
event producer (`astream_events`) is library code not present in the
provided sources. -/
structure EventData where
  chunk : Option AIMessageChunk
  inputQuery : Option String
  outputDocuments : Option (List Document)
deriving DecidableEq, Repr

/-- Modelled from the spec: a streamed event is a mapping with an event-type
tag, a name, a run identifier, a list of string tags, and a nested data
payload. -/
structure StreamEvent where
  event : String
  name : String
  run_id : String
  tags : List String
  data : EventData
deriving DecidableEq, Repr

/-- The body of the first `astream_events` loop: when the event type is
`on_chat_model_stream` and `contextualize_q_llm` is among the tags, the
loop reads `event["data"]["chunk"]` and prints its content. -/
def contextualizeEmit (e : StreamEvent) : Option String :=
  if e.event = "on_chat_model_stream" ∧ "contextualize_q_llm" ∈ e.tags then
    e.data.chunk.map AIMessageChunk.content
  else none

/-- The first `astream_events` consumer loop over a list of events. -/
def contextualizeLoop (events : List StreamEvent) : List String :=
  events.filterMap contextualizeEmit

/-- The body of the second `astream_events` loop: when the event name is
`Retriever`, the loop prints the whole event. -/
def retrieverEmit (e : StreamEvent) : Option StreamEvent :=
  if e.name = "Retriever" then some e else none

/-- The second `astream_events` consumer loop over a list of events. -/
def retrieverLoop (events : List StreamEvent) : List StreamEvent :=
  events.filterMap retrieverEmit

/-- A sample event of the kind the first `astream_events` loop selects: a
chat-model token tagged `contextualize_q_llm`. -/
def sampleChatEvent : StreamEvent :=
  ⟨"on_chat_model_stream", "ChatOpenAI", "r1", ["contextualize_q_llm"],
    ⟨some ⟨"What"⟩, none, none⟩⟩

/-- A sample event of the kind the second `astream_events` loop selects: a
retriever start event. -/
def sampleRetrieverEvent : StreamEvent :=
  ⟨"on_retriever_start", "Retriever", "r2", ["seq:step:4"], ⟨none, some "q", none⟩⟩

/-- The kind of a consumer loop appearing in the notebook. -/
inductive LoopKind where
  | sync
  | async
deriving DecidableEq, Repr

/-- A consumer loop of the notebook: its kind and the streaming call it
iterates over. -/
structure ConsumerLoop where
  kind : LoopKind
  streamCall : String
deriving DecidableEq, Repr

/-- The inventory of the notebook's iteration loops that consume a streaming
call, in cell order: the `print(chunk)` loop and the key-filtering loop over
`rag_chain.stream`, the loop over `chain.stream` for the picked chain, and
the two `async for` loops over `rag_chain.astream_events`. -/
def notebookConsumerLoops : List ConsumerLoop :=
  [⟨LoopKind.sync, "rag_chain.stream"⟩,
   ⟨LoopKind.sync, "rag_chain.stream"⟩,
   ⟨LoopKind.sync, "chain.stream"⟩,
   ⟨LoopKind.async, "rag_chain.astream_events"⟩,
   ⟨LoopKind.async, "rag_chain.astream_events"⟩]

/-- The number of loops of a given kind in the notebook's inventory. -/
def loopCount (k : LoopKind) : Nat :=
  (notebookConsumerLoops.filter (fun l => l.kind == k)).length

/-- The kind of access the notebook makes to an environment variable. -/
inductive EnvAccess where
  | read
  | write
deriving DecidableEq, Repr

/-- The environment variable accesses in the notebook's code cells, in cell
order: `os.environ["OPENAI_API_KEY"] = getpass.getpass()`,
`os.environ["LANGCHAIN_TRACING_V2"] = "true"` and
`os.environ["LANGCHAIN_API_KEY"] = getpass.getpass()` — all three are
assignments. -/
def notebookEnvVarAccesses : List (String × EnvAccess) :=
  [("OPENAI_API_KEY", EnvAccess.write),
   ("LANGCHAIN_TRACING_V2", EnvAccess.write),
   ("LANGCHAIN_API_KEY", EnvAccess.write)]

/-- The vector store holds the indexed split documents
(`Chroma.from_documents(documents=splits, ...)`). -/
abbrev VectorStoreModel := List Document

/-- Failures raised by the external library calls the notebook makes. -/
inductive PipelineError where
  | networkError : String → PipelineError
  | missingCredential : String → PipelineError
  | embeddingFailure : String → PipelineError
deriving DecidableEq, Repr

/-- The notebook's straight-line glue from loading to streaming:
`docs = loader.load()`, `splits = text_splitter.split_documents(docs)`,
`vectorstore = Chroma.from_documents(...)`, then consuming
`rag_chain.stream({"input": q})`. The fallible external calls are
parameters returning `Except`; the notebook has no handler around any of
them, so the glue is a plain monadic sequence. -/
def buildAndStream (loaded : Except PipelineError (List Document))
    (splitDocs : List Document → List Document)
    (indexDocs : List Document → Except PipelineError VectorStoreModel)
    (streamChain : VectorStoreModel → String → Except PipelineError (List Chunk))
    (q : String) : Except PipelineError (List Chunk) := do
  let ds ← loaded
  let vs ← indexDocs (splitDocs ds)
  streamChain vs q

/-- The web paths the notebook's document loader is constructed with:
`WebBaseLoader(web_paths=("https://lilianweng.github.io/posts/2023-06-23-agent/",), ...)`. -/
def loaderWebPaths : List String :=
  ["https://lilianweng.github.io/posts/2023-06-23-agent/"]

/-- A sample split document of the single-page load. -/
def samplePageDoc : Document :=
  ⟨"txt", "https://lilianweng.github.io/posts/2023-06-23-agent/"⟩

/-- Modelled from the spec: the external `WebBaseLoader` produces one
document per web path, with the fetched page text as content and the path
as source-URL metadata. The loader implementation is library code not
present in the provided sources. -/
def webBaseLoad (fetch : String → String) (paths : List String) : List Document :=
  paths.map (fun p => { page_content := fetch p, source := p })

/-- Modelled from the spec: the external splitter cuts each document's page
text into chunks and copies the metadata onto every piece. The splitter
implementation is library code not present in the provided sources. -/
def splitLoadedDocuments (splitText : String → List String) (ds : List Document) :
    List Document :=
  (ds.map (fun d => (splitText d.page_content).map
    (fun t => { page_content := t, source := d.source }))).flatten

/-- The shape of a key-value pair of a streamed chunk: the `input` key holds
the original query, the `context` key holds the retrieved documents, the
`answer` key holds one of the answer fragments. -/
def chunkKeyShape (q : String) (ds : List Document) (frags : List String)
    (kv : String × ChunkVal) : Prop :=
  (kv.1 = "input" ∧ kv.2 = ChunkVal.str q) ∨
  (kv.1 = "context" ∧ kv.2 = ChunkVal.docList ds) ∨
  (kv.1 = "answer" ∧ ∃ s ∈ frags, kv.2 = ChunkVal.str s)

theorem answerEmit_eq_some_iff (c : Chunk) (v : ChunkVal) :
    answerEmit c = some v ↔ Chunk.get c "answer" = some v ∧ pyTruthy v = true := by
  cases h : Chunk.get c "answer" with
  | none => simp [answerEmit, h]
  | some w =>
    simp only [answerEmit, h]
    by_cases ht : pyTruthy w = true
    · rw [if_pos ht]
      constructor
      · intro hv
        cases (Option.some.injEq w v).mp hv
        exact ⟨rfl, ht⟩
      · rintro ⟨hw, _⟩
        cases (Option.some.injEq w v).mp hw
        rfl
    · rw [if_neg ht]
      constructor
      · intro hv; cases hv
      · rintro ⟨hw, hv⟩
        cases (Option.some.injEq w v).mp hw
        exact absurd hv ht

theorem answerEmit_eq_none_of_get_none (c : Chunk) (h : Chunk.get c "answer" = none) :
    answerEmit c = none := by
  unfold answerEmit
  rw [h]

theorem string_join_cons (s : String) (l : List String) :
    String.join (s :: l) = s ++ String.join l := by
  apply String.ext
  simp [String.data_append]

end QAStreaming

namespace QAStreaming

/-- C1: over the modelled retrieval-chain stream, the keys of the successive
chunks are exactly `input`, then `context`, then `answer` repeated once per
answer fragment — the fixed order, with no earlier key reappearing later. -/
theorem ragStream_key_order (q : String) (ds : List Document) (frags : List String) :
    (ragStream q ds frags).map Chunk.keys =
      ["input"] :: ["context"] :: frags.map (fun _ => ["answer"]) := by
  simp only [ragStream, List.map_cons, List.map_map]
  refine congrArg _ (congrArg _ ?_)
  induction frags with
  | nil => rfl
  | cons f fs ih => simp only [List.map_cons, ih]; rfl

/-- C2: every chunk of the modelled retrieval-chain stream is a mapping
whose keys come only from `input`, `context`, `answer`; the `input` value is
the original query, the `context` value is the retrieved document sequence,
and each `answer` value is one of the text fragments. -/
theorem ragStream_chunk_shape (q : String) (ds : List Document) (frags : List String)
    (c : Chunk) (hc : c ∈ ragStream q ds frags)
    (kv : String × ChunkVal) (hkv : kv ∈ c) :
    chunkKeyShape q ds frags kv := by
  simp only [ragStream, List.mem_cons, List.mem_map] at hc
  rcases hc with rfl | rfl | ⟨f, hf, rfl⟩
  · simp only [List.mem_singleton] at hkv
    subst hkv
    exact Or.inl ⟨rfl, rfl⟩
  · simp only [List.mem_singleton] at hkv
    subst hkv
    exact Or.inr (Or.inl ⟨rfl, rfl⟩)
  · simp only [List.mem_singleton] at hkv
    subst hkv
    exact Or.inr (Or.inr ⟨rfl, f, hf, rfl⟩)

/-- Witness for C2 at a concrete stream: the answer chunk of a one-fragment
stream satisfies the key shape. -/
theorem ragStream_chunk_shape_witness :
    [("answer", ChunkVal.str "Task")] ∈ ragStream "Q" [] ["Task"] ∧
      chunkKeyShape "Q" [] ["Task"] ("answer", ChunkVal.str "Task") :=
  ⟨by decide,
    ragStream_chunk_shape "Q" [] ["Task"] [("answer", ChunkVal.str "Task")] (by decide)
      ("answer", ChunkVal.str "Task") (by decide)⟩

/-- C3: the key-filtering loop emits a fragment for a chunk iff the chunk
holds a truthy value under the `answer` key, and the emitted fragment is
exactly that value; a chunk without the `answer` key (for example one
carrying only `input` or `context`) is never emitted. -/
theorem answerPrintLoop_filter (c : Chunk) (v : ChunkVal) :
    (answerEmit c = some v ↔ Chunk.get c "answer" = some v ∧ pyTruthy v = true) ∧
    (Chunk.get c "answer" = none → answerEmit c = none) :=
  ⟨answerEmit_eq_some_iff c v, answerEmit_eq_none_of_get_none c⟩

/-- Witness for C3: on a chunk carrying a non-empty answer fragment, the
loop emits exactly that fragment; a chunk carrying only `input` is skipped. -/
theorem answerPrintLoop_filter_witness :
    answerEmit [("answer", ChunkVal.str "Task")] = some (ChunkVal.str "Task") ∧
      answerEmit [("input", ChunkVal.str "Q")] = none :=
  ⟨(answerPrintLoop_filter [("answer", ChunkVal.str "Task")] (ChunkVal.str "Task")).1.mpr
      ⟨by decide, by decide⟩,
    (answerPrintLoop_filter [("input", ChunkVal.str "Q")] (ChunkVal.str "Q")).2 (by decide)⟩

/-- C9: on any chunk sequence whose `answer` values are text fragments, the
concatenation of the fragments emitted by the key-filtering loop equals the
concatenation of the fragments emitted by the picked `answer` stream: the
two consumer styles are output-equivalent up to empty fragments. -/
theorem answerPrintLoop_pick_concat (chunks : List Chunk)
    (h : ∀ c ∈ chunks, ((Chunk.get c "answer").all ChunkVal.isStr) = true) :
    String.join ((answerPrintLoop chunks).filterMap ChunkVal.asText) =
      String.join ((pickAnswerStream chunks).filterMap ChunkVal.asText) := by
  induction chunks with
  | nil => rfl
  | cons c cs ih =>
    have hc := h c (List.mem_cons_self c cs)
    have ih2 := ih (fun x hx => h x (List.mem_cons_of_mem c hx))
    cases hg : Chunk.get c "answer" with
    | none =>
      have hE := answerEmit_eq_none_of_get_none c hg
      simpa [answerPrintLoop, pickAnswerStream, List.filterMap_cons, hE, hg] using ih2
    | some v =>
      rw [hg] at hc
      cases v with
      | docList ds => simp [ChunkVal.isStr] at hc
      | str s =>
        by_cases hs : s = ""
        · subst hs
          have hE : answerEmit c = none := by
            simp [answerEmit, hg, pyTruthy]
          simp only [answerPrintLoop, pickAnswerStream, List.filterMap_cons, hE, hg,
            ChunkVal.asText] at ih2 ⊢
          rw [string_join_cons, String.empty_append]
          exact ih2
        · have hT : pyTruthy (ChunkVal.str s) = true := by
            simpa [pyTruthy] using hs
          have hE : answerEmit c = some (ChunkVal.str s) :=
            (answerEmit_eq_some_iff c (ChunkVal.str s)).mpr ⟨hg, hT⟩
          simp only [answerPrintLoop, pickAnswerStream, List.filterMap_cons, hE, hg,
            ChunkVal.asText] at ih2 ⊢
          rw [string_join_cons, string_join_cons, ih2]

/-- Witness for C9: on a stream carrying an empty and a non-empty answer
fragment, both consumer styles concatenate to the same text. -/
theorem answerPrintLoop_pick_concat_witness :
    (∀ c ∈ ([[("answer", ChunkVal.str "")], [("answer", ChunkVal.str "Task")]] : List Chunk),
        ((Chunk.get c "answer").all ChunkVal.isStr) = true) ∧
      String.join ((answerPrintLoop
          [[("answer", ChunkVal.str "")], [("answer", ChunkVal.str "Task")]]).filterMap
            ChunkVal.asText) =
        String.join ((pickAnswerStream
          [[("answer", ChunkVal.str "")], [("answer", ChunkVal.str "Task")]]).filterMap
            ChunkVal.asText) :=
  ⟨by decide,
    answerPrintLoop_pick_concat
      [[("answer", ChunkVal.str "")], [("answer", ChunkVal.str "Task")]] (by decide)⟩

/-- C10: every fragment the key-filtering loop emits is truthy — in
particular a non-empty string — because the loop tests truthiness of
`chunk.get("answer")`; a chunk whose `answer` value is the empty string is
silently skipped by that loop, whereas the picked `answer` stream does emit
the empty fragment. -/
theorem answerPrintLoop_nonempty :
    (∀ (chunks : List Chunk) (s : String),
        ChunkVal.str s ∈ answerPrintLoop chunks → s ≠ "") ∧
    answerEmit [("answer", ChunkVal.str "")] = none ∧
    pickAnswerStream [[("answer", ChunkVal.str "")]] = [ChunkVal.str ""] := by
  refine ⟨?_, by decide, by decide⟩
  intro chunks s hs
  simp only [answerPrintLoop, List.mem_filterMap] at hs
  obtain ⟨c, _, he⟩ := hs
  have := (answerEmit_eq_some_iff c (ChunkVal.str s)).mp he
  have ht := this.2
  simp only [pyTruthy] at ht
  intro hempty
  rw [hempty] at ht
  simp at ht

/-- Witness for C10: the fragment emitted for a concrete answer chunk is a
non-empty string. -/
theorem answerPrintLoop_nonempty_witness :
    ChunkVal.str "Task" ∈ answerPrintLoop [[("answer", ChunkVal.str "Task")]] ∧
      "Task" ≠ "" :=
  ⟨by decide,
    answerPrintLoop_nonempty.1 [[("answer", ChunkVal.str "Task")]] "Task" (by decide)⟩

/-- C4: the first `astream_events` consumer emits an event's chunk content
iff the event type is `on_chat_model_stream` and `contextualize_q_llm` is
among its tags; the second consumer emits an event iff its name is
`Retriever`. -/
theorem astream_event_filters :
    (∀ (e : StreamEvent) (c : AIMessageChunk), e.data.chunk = some c →
      (contextualizeEmit e = some c.content ↔
        (e.event = "on_chat_model_stream" ∧ "contextualize_q_llm" ∈ e.tags))) ∧
    (∀ e : StreamEvent, retrieverEmit e = some e ↔ e.name = "Retriever") := by
  constructor
  · intro e c hc
    unfold contextualizeEmit
    by_cases hp : e.event = "on_chat_model_stream" ∧ "contextualize_q_llm" ∈ e.tags
    · rw [if_pos hp, hc]
      exact ⟨fun _ => hp, fun _ => rfl⟩
    · rw [if_neg hp]
      exact ⟨fun he => Option.noConfusion he, fun hp2 => absurd hp2 hp⟩
  · intro e
    unfold retrieverEmit
    by_cases hn : e.name = "Retriever"
    · rw [if_pos hn]
      exact ⟨fun _ => hn, fun _ => rfl⟩
    · rw [if_neg hn]
      exact ⟨fun he => Option.noConfusion he, fun hn2 => absurd hn2 hn⟩

/-- Witness for C4: a concrete tagged chat-model stream event is emitted
with its content, and a concrete `Retriever` event is selected by name. -/
theorem astream_event_filters_witness :
    contextualizeEmit sampleChatEvent = some "What" ∧
      retrieverEmit sampleRetrieverEvent = some sampleRetrieverEvent :=
  ⟨(astream_event_filters.1 sampleChatEvent ⟨"What"⟩ rfl).mpr ⟨rfl, by decide⟩,
    (astream_event_filters.2 sampleRetrieverEvent).mpr rfl⟩

/-- C5 counterexample: the notebook does not contain exactly one async and
exactly one sync consumer loop — its inventory has two async loops over
`astream_events` and three sync loops over `stream`. -/
theorem loop_inventory_claim_false :
    ¬(loopCount LoopKind.async = 1 ∧ loopCount LoopKind.sync = 1) := by
  decide

/-- C5 amended: the notebook contains exactly two asynchronous iteration
loops consuming streaming calls and exactly three synchronous ones. -/
theorem loop_inventory_counts :
    loopCount LoopKind.async = 2 ∧ loopCount LoopKind.sync = 3 := by
  decide

/-- C6 counterexample: the notebook does not access exactly two environment
variables, and its accesses are not reads — it assigns three variables. -/
theorem env_access_claim_false :
    ¬(notebookEnvVarAccesses.length = 2 ∧
      notebookEnvVarAccesses.all (fun a => decide (a.2 = EnvAccess.read)) = true) := by
  decide

/-- C6 amended: the notebook accesses exactly three environment variables
(`OPENAI_API_KEY`, `LANGCHAIN_TRACING_V2`, `LANGCHAIN_API_KEY`), all of them
assignments that set values for the external library to consume. -/
theorem env_access_counts :
    notebookEnvVarAccesses.length = 3 ∧
      notebookEnvVarAccesses.map (fun a => a.1) =
        ["OPENAI_API_KEY", "LANGCHAIN_TRACING_V2", "LANGCHAIN_API_KEY"] ∧
      notebookEnvVarAccesses.all (fun a => decide (a.2 = EnvAccess.write)) = true := by
  decide

/-- C7: the notebook's glue propagates any external failure unchanged: if
loading fails, the whole run fails with that very error; likewise if
indexing fails after a successful load, or if streaming fails after a
successful load and index. No call site catches, transforms, retries or
suppresses the error. -/
theorem buildAndStream_error_propagation :
    (∀ (e : PipelineError) (splitDocs : List Document → List Document)
        (indexDocs : List Document → Except PipelineError VectorStoreModel)
        (streamChain : VectorStoreModel → String → Except PipelineError (List Chunk))
        (q : String),
        buildAndStream (Except.error e) splitDocs indexDocs streamChain q =
          Except.error e) ∧
    (∀ (ds : List Document) (splitDocs : List Document → List Document)
        (e : PipelineError)
        (streamChain : VectorStoreModel → String → Except PipelineError (List Chunk))
        (q : String),
        buildAndStream (Except.ok ds) splitDocs (fun _ => Except.error e) streamChain q =
          Except.error e) ∧
    (∀ (ds : List Document) (splitDocs : List Document → List Document)
        (vs : VectorStoreModel) (e : PipelineError) (q : String),
        buildAndStream (Except.ok ds) splitDocs (fun _ => Except.ok vs)
          (fun _ _ => Except.error e) q = Except.error e) :=
  ⟨fun _ _ _ _ _ => rfl, fun _ _ _ _ _ => rfl, fun _ _ _ _ _ => rfl⟩

/-- C8: the loader is constructed with exactly one web page path, and every
document drawn from the index built over that loader's output (so every
element of a streamed `context` sequence or of a Retriever event's output)
carries the single page's URL as its source metadata. -/
theorem loader_single_source :
    loaderWebPaths.length = 1 ∧
    ∀ (fetch : String → String) (splitText : String → List String)
      (retrieved : List Document),
      (∀ d ∈ retrieved,
          d ∈ splitLoadedDocuments splitText (webBaseLoad fetch loaderWebPaths)) →
      ∀ d ∈ retrieved,
        d.source = "https://lilianweng.github.io/posts/2023-06-23-agent/" := by
  refine ⟨rfl, ?_⟩
  intro fetch splitText retrieved hsub d hd
  have hmem := hsub d hd
  simp only [splitLoadedDocuments, webBaseLoad, loaderWebPaths, List.map_cons,
    List.map_nil, List.flatten_cons, List.flatten_nil, List.append_nil,
    List.mem_map] at hmem
  obtain ⟨t, _, rfl⟩ := hmem
  rfl

/-- Witness for C8: a concrete document retrieved from the index over the
single-page load carries that page's URL as source. -/
theorem loader_single_source_witness :
    (∀ d ∈ [samplePageDoc],
        d ∈ splitLoadedDocuments (fun s => [s])
          (webBaseLoad (fun _ => "txt") loaderWebPaths)) ∧
      ∀ d ∈ [samplePageDoc],
        d.source = "https://lilianweng.github.io/posts/2023-06-23-agent/" :=
  ⟨by decide,
    loader_single_source.2 (fun _ => "txt") (fun s => [s]) [samplePageDoc] (by decide)⟩

end QAStreaming
